import Mathlib

/-!
Shallow embedding of the Keycloak / Logipad client code of dleese/CustomerProject.

Modelled source units:
- `logipad::auth::KeycloakClient` (declared in LPKeyCloakClient.hpp, implemented in
  the LPKeyCloakClient.cpp translation unit concatenated into LPLogipadClient.hpp):
  `UserInfo::toJson`, `authenticate`, `ensureAuthenticated`, `getAuthHeaders`,
  `createUser`, `setCredentials`, `isAuthenticated`.
- `logipad::client::LogipadClient` (declared in LPLogipadClient.hpp, implemented in
  the LPLogipadClient.cpp translation unit concatenated into LPHelperObject.cpp):
  `authenticate`, `getAllUsers`, `isAuthenticated`, the `User` / `Users` records.
  The non-namespaced class `LPLogipadClient` (LPLogipadClient.cpp at top level) has
  method bodies identical to the namespaced `logipad::client::LogipadClient`; the
  single model below covers both variants.

Modelling conventions:
- HTTP transport is an oracle `Net : Request -> Option Response`; `none` models a
  transport failure (`res` null in httplib). Each operation returns, next to the
  value the C++ function returns and the mutated object state, the list of requests
  it handed to the transport, so that claims about requests being sent or not sent
  are statements about that trace.
- A response body is carried both as raw text (used by the C++ code only to build
  error messages) and as a `BodyContent`: either `malformed` (nlohmann parse throws)
  or `wellFormed j` with `j` the parsed JSON document. This models the partition that
  `nlohmann::json::parse` induces on strings.
- C++ exceptions of the json library are modelled with `Except JErr`; a function
  whose C++ body wraps the throwing calls in try/catch is total in the model, while
  `LogipadClient::authenticate`, which has no try/catch, returns an `Except` whose
  `error` case is the exception escaping to the caller (the state component carried
  in the error is the object state at the moment of the throw).
- JSON numbers are modelled as integers; no claim exercises numeric values beyond
  their shape.
- `std::string::empty()` is modelled as equality with the empty string, and the
  message text produced from `e.what()` by a fixed description per exception kind.
-/

/-- JSON values as produced by nlohmann::json, with numbers restricted to integers. -/
inductive Json where
  | null : Json
  | bool (b : Bool) : Json
  | num (n : Int) : Json
  | str (s : String) : Json
  | arr (elems : List Json) : Json
  | obj (fields : List (String × Json)) : Json

/-- Exceptions thrown by the nlohmann json library: parse errors and type errors. -/
inductive JErr where
  | parseFail : JErr
  | typeMismatch : JErr
deriving DecidableEq

/-- Stand-in for `e.what()` when the C++ code splices the exception text into a message. -/
def jErrMsg : JErr → String
  | .parseFail => "parse error"
  | .typeMismatch => "type error"

/-- nlohmann `is_null()`. -/
def Json.isNull : Json → Bool
  | .null => true
  | _ => false

/-- nlohmann `is_array()`. -/
def Json.isArr : Json → Bool
  | .arr _ => true
  | _ => false

/-- nlohmann `is_object()`. -/
def Json.isObj : Json → Bool
  | .obj _ => true
  | _ => false

/-- Elements of an array value (only ever used on arrays in the modelled code). -/
def Json.arrElems : Json → List Json
  | .arr elems => elems
  | _ => []

/-- nlohmann `contains(key)`: true only on objects holding the key. -/
def Json.containsKey : Json → String → Bool
  | .obj fields, k => fields.any (fun p => p.1 == k)
  | _, _ => false

/-- Read a key from an object, `null` when absent. In the modelled code this stands
for `operator[]` reads; every use either follows a `contains` guard or feeds a
conversion that throws on the `null` (or non-object) result exactly as the C++
`operator[]` path does, so the observable behaviour agrees. -/
def Json.lookupD : Json → String → Json
  | .obj fields, k => ((fields.find? (fun p => p.1 == k)).map Prod.snd).getD Json.null
  | _, _ => Json.null

/-- nlohmann `get<std::string>()`: throws a type error unless the value is a string. -/
def Json.getString : Json → Except JErr String
  | .str s => .ok s
  | _ => .error .typeMismatch

/-- nlohmann `get<bool>()`: throws a type error unless the value is a boolean. -/
def Json.getBool : Json → Except JErr Bool
  | .bool b => .ok b
  | _ => .error .typeMismatch

/-- Parse status of a response body: `malformed` when `nlohmann::json::parse` throws,
`wellFormed j` when it yields the document `j`. -/
inductive BodyContent where
  | malformed : BodyContent
  | wellFormed (j : Json) : BodyContent

/-- `nlohmann::json::parse` on a response body. -/
def jsonParse : BodyContent → Except JErr Json
  | .malformed => .error .parseFail
  | .wellFormed j => .ok j

/-- An HTTP response as observed through httplib: status code, parse status of the
body, and the raw body text (used only in error-message construction). -/
structure Response where
  status : Int
  body : BodyContent
  text : String

/-- Body of an outgoing request: none (GET), form-encoded parameters, or a JSON document. -/
inductive RequestBody where
  | empty : RequestBody
  | form (params : List (String × String)) : RequestBody
  | json (j : Json) : RequestBody

/-- An outgoing HTTP request: target host and port of the httplib client used,
method, path, headers and body. -/
structure Request where
  host : String
  port : Int
  method : String
  path : String
  headers : List (String × String)
  body : RequestBody

/-- The transport oracle: what response (if any) the network returns for a request. -/
def Net : Type := Request → Option Response

/-- `logipad::auth::KeycloakClient::UserInfo` (LPKeyCloakClient.hpp lines 46-64). -/
structure UserInfo where
  username : String
  email : String
  firstName : String
  lastName : String
  password : String
  enabled : Bool := true
  emailVerified : Bool := true

/-- `KeycloakClient::UserInfo::toJson` (LPKeyCloakClient.cpp): the base fields are
always emitted; the credentials array is emitted only when the password field is
non-empty, and its single element carries the fixed literal "logipad" as value, not
the password field. -/
def UserInfo.toJson (u : UserInfo) : Json :=
  let base : List (String × Json) :=
    [("username", Json.str u.username),
     ("email", Json.str u.email),
     ("firstName", Json.str u.firstName),
     ("lastName", Json.str u.lastName),
     ("enabled", Json.bool u.enabled),
     ("emailVerified", Json.bool u.emailVerified)]
  if u.password = "" then
    Json.obj base
  else
    Json.obj (base ++
      [("credentials",
        Json.arr [Json.obj
          [("type", Json.str "password"),
           ("value", Json.str "logipad"),
           ("temporary", Json.bool true)]])])

/-- Mutable state of a `logipad::auth::KeycloakClient` object (its string members;
the owned httplib client is represented by the host and port it is bound to). -/
structure KeycloakClient where
  host : String
  port : Int
  realm : String
  clientId : String
  username : String
  password : String
  accessToken : String
  lastError : String
deriving DecidableEq

/-- The form-encoded token request built by `KeycloakClient::authenticate`. -/
def KeycloakClient.tokenRequest (c : KeycloakClient) : Request where
  host := c.host
  port := c.port
  method := "POST"
  path := "/realms/" ++ c.realm ++ "/protocol/openid-connect/token"
  headers := []
  body := RequestBody.form
    [("client_id", c.clientId), ("grant_type", "password"),
     ("username", c.username), ("password", c.password)]

/-- `KeycloakClient::authenticate` (LPKeyCloakClient.cpp lines 263-324): clears the
error and the token, rejects empty credentials without a request, otherwise posts the
password grant and, on a 200 response, extracts access_token inside a try/catch that
converts json exceptions into a false result. -/
def KeycloakClient.authenticate (c : KeycloakClient) (net : Net) :
    Bool × KeycloakClient × List Request :=
  let c := { c with lastError := "", accessToken := "" }
  if c.username = "" ∨ c.password = "" then
    (false, { c with lastError := "Username or password not set" }, [])
  else
    let req := KeycloakClient.tokenRequest c
    match net req with
    | some res =>
      if res.status = 200 then
        match jsonParse res.body with
        | .ok j =>
          if j.containsKey "access_token" then
            match (j.lookupD "access_token").getString with
            | .ok s => (true, { c with accessToken := s }, [req])
            | .error e =>
              (false, { c with lastError := "Failed to parse JSON response: " ++ jErrMsg e }, [req])
          else
            (false, { c with lastError := "Access token not found in response" }, [req])
        | .error e =>
          (false, { c with lastError := "Failed to parse JSON response: " ++ jErrMsg e }, [req])
      else
        (false,
         { c with lastError := "Authentication failed with status: " ++ toString res.status ++
             (if res.text = "" then "" else " - " ++ res.text) },
         [req])
    | none => (false, { c with lastError := "Authentication request failed" }, [req])

/-- `KeycloakClient::ensureAuthenticated` (LPKeyCloakClient.cpp lines 327-334). -/
def KeycloakClient.ensureAuthenticated (c : KeycloakClient) (net : Net) :
    Bool × KeycloakClient × List Request :=
  if c.accessToken = "" then KeycloakClient.authenticate c net
  else (true, c, [])

/-- `KeycloakClient::getAuthHeaders` (LPKeyCloakClient.cpp lines 337-347). -/
def KeycloakClient.getAuthHeaders (c : KeycloakClient) : List (String × String) :=
  (if c.accessToken = "" then [] else [("Authorization", "Bearer " ++ c.accessToken)]) ++
    [("Content-Type", "application/json"), ("Accept", "application/json")]

/-- The user-creation POST built by `KeycloakClient::createUser`. -/
def KeycloakClient.createUserRequest (c : KeycloakClient) (u : UserInfo) (realm : String) :
    Request where
  host := c.host
  port := c.port
  method := "POST"
  path := "/admin/realms/" ++ realm ++ "/users"
  headers := KeycloakClient.getAuthHeaders c
  body := RequestBody.json (UserInfo.toJson u)

/-- Error message built by `KeycloakClient::createUser` for a status other than 201
and 409: the status code, then (for a non-empty body) the errorMessage field of the
body when it parses to JSON holding a string at that key, otherwise the raw body. -/
def KeycloakClient.createUserFailMsg (res : Response) : String :=
  "Failed to create user. Status: " ++ toString res.status ++
    (if res.text = "" then ""
     else " - " ++
       (match jsonParse res.body with
        | .ok j =>
          if j.containsKey "errorMessage" then
            match (j.lookupD "errorMessage").getString with
            | .ok m => m
            | .error _ => res.text
          else res.text
        | .error _ => res.text))

/-- `KeycloakClient::createUser` (LPKeyCloakClient.cpp lines 350-429): clears the
error, lazily re-authenticates when no token is held, only then validates that the
username and email of the record are non-empty, and finally posts the JSON-mapped
record; 201 succeeds, 409 and all other outcomes fail with a message. -/
def KeycloakClient.createUser (c : KeycloakClient) (userInfo : UserInfo) (realm : String)
    (net : Net) : Bool × KeycloakClient × List Request :=
  let c := { c with lastError := "" }
  let ensured := KeycloakClient.ensureAuthenticated c net
  let ok := ensured.1
  let c2 := ensured.2.1
  let trace := ensured.2.2
  if ok = false then
    (false, { c2 with lastError := "Not authenticated: " ++ c2.lastError }, trace)
  else if userInfo.username = "" then
    (false, { c2 with lastError := "Username is required" }, trace)
  else if userInfo.email = "" then
    (false, { c2 with lastError := "Email is required" }, trace)
  else
    let req := KeycloakClient.createUserRequest c2 userInfo realm
    match net req with
    | some res =>
      if res.status = 201 then (true, c2, trace ++ [req])
      else if res.status = 409 then
        (false,
         { c2 with lastError :=
             "User with username \x27" ++ userInfo.username ++ "\x27 already exists" },
         trace ++ [req])
      else
        (false, { c2 with lastError := KeycloakClient.createUserFailMsg res }, trace ++ [req])
    | none =>
      (false, { c2 with lastError := "Request failed to create user" }, trace ++ [req])

/-- `KeycloakClient::setCredentials` (LPKeyCloakClient.cpp lines 432-438): replaces
the credentials and clears the token. -/
def KeycloakClient.setCredentials (c : KeycloakClient) (username password : String) :
    KeycloakClient :=
  { c with username := username, password := password, accessToken := "" }

/-- `KeycloakClient::isAuthenticated` (LPKeyCloakClient.hpp line 128). -/
def KeycloakClient.isAuthenticated (c : KeycloakClient) : Bool :=
  !(c.accessToken == "")

/-- `KeycloakClient::getAccessToken` (LPKeyCloakClient.hpp line 122). -/
def KeycloakClient.getAccessToken (c : KeycloakClient) : String :=
  c.accessToken

/-- `logipad::client::LogipadClient::User` (LPLogipadClient.hpp lines 52-81): the
directory user record, with a required guid, 14 optional string attributes and the
two booleans. A default-constructed C++ `User` has guid equal to the empty string. -/
structure User where
  guid : String
  created_at : Option String
  created_by : Option String
  modified_at : Option String
  modified_by : Option String
  last_login_at : Option String
  last_activity_at : Option String
  last_document_service_activity : Option String
  last_eform_service_activity : Option String
  last_briefing_service_activity : Option String
  name : Option String
  type : Option String
  full_name : Option String
  email : Option String
  three_lc : Option String
  department : Option String
  description : Option String
  is_active : Bool
  is_reportable : Bool
deriving DecidableEq

/-- `LogipadClient::Users` (LPLogipadClient.hpp lines 88-91). -/
structure Users where
  users : List User
deriving DecidableEq

/-- Mutable state of a `logipad::client::LogipadClient` object. The declared member
`m_keycloakClient` is omitted: the constructor never initialises it (it stays a null
unique_ptr) and no method reads it. -/
structure LogipadClient where
  host : String
  port : Int
  realm : String
  clientId : String
  username : String
  password : String
  accessToken : String
deriving DecidableEq

/-- The form-encoded token request built by `LogipadClient::authenticate` (its own
copy of the request construction; the embedded KeycloakClient is not involved). -/
def LogipadClient.tokenRequest (c : LogipadClient) : Request where
  host := c.host
  port := c.port
  method := "POST"
  path := "/realms/" ++ c.realm ++ "/protocol/openid-connect/token"
  headers := []
  body := RequestBody.form
    [("client_id", c.clientId), ("grant_type", "password"),
     ("username", c.username), ("password", c.password)]

/-- `LogipadClient::authenticate` (LPLogipadClient.cpp lines 85-115 of the
translation unit in LPHelperObject.cpp): clears the token, rejects empty credentials
without a request, otherwise posts the password grant itself. On a 200 response it
parses the body and converts the access_token entry to a string with NO try/catch:
a parse failure or a missing / non-string access_token makes the json exception
escape to the caller, modelled by the `Except.error` case (carrying the object state
at the throw, whose token is the cleared empty string). -/
def LogipadClient.authenticate (c : LogipadClient) (net : Net) :
    Except (JErr × LogipadClient) (Bool × LogipadClient) × List Request :=
  let c := { c with accessToken := "" }
  if c.username = "" ∨ c.password = "" then
    (.ok (false, c), [])
  else
    let req := LogipadClient.tokenRequest c
    match net req with
    | some res =>
      if res.status = 200 then
        match jsonParse res.body with
        | .ok j =>
          match (j.lookupD "access_token").getString with
          | .ok s => (.ok (true, { c with accessToken := s }), [req])
          | .error e => (.error (e, c), [req])
        | .error e => (.error (e, c), [req])
      else (.ok (false, c), [req])
    | none => (.ok (false, c), [req])

/-- `LogipadClient::isAuthenticated` (LPLogipadClient.hpp line 131). -/
def LogipadClient.isAuthenticated (c : LogipadClient) : Bool :=
  !(c.accessToken == "")

/-- The GET request built by `LogipadClient::getAllUsers` on the per-call httplib
client bound to the api host and port. -/
def LogipadClient.usersRequest (c : LogipadClient) (apiHost : String) (apiPort : Int) :
    Request where
  host := apiHost
  port := apiPort
  method := "GET"
  path := "/users"
  headers := [("Authorization", "Bearer " ++ c.accessToken), ("Accept", "application/json")]
  body := RequestBody.empty

/-- One optional string attribute of an entry, as read by the repeated pattern
`if (userJson.contains(k) && !userJson[k].is_null()) user.f = userJson[k].get<std::string>()`
in `getAllUsers`: absent or null leaves the field unset; a present non-null value is
converted with `get<std::string>()`, whose type error propagates. -/
def optStrField (j : Json) (k : String) : Except JErr (Option String) :=
  if j.containsKey k && !(j.lookupD k).isNull then
    match (j.lookupD k).getString with
    | .ok s => .ok (some s)
    | .error e => .error e
  else .ok none

/-- One defaulted boolean attribute of an entry, as read by
`userJson.contains(k) ? userJson[k].get<bool>() : dflt` in `getAllUsers`. -/
def boolFieldD (j : Json) (k : String) (dflt : Bool) : Except JErr Bool :=
  if j.containsKey k then (j.lookupD k).getBool else .ok dflt

/-- The guid read of the parsing loop:
`if (userJson.contains("guid")) user.guid = userJson["guid"].get<std::string>()`,
leaving the default-constructed empty string when the key is absent. -/
def guidRead (j : Json) : Except JErr String :=
  if j.containsKey "guid" then (j.lookupD "guid").getString else pure ""

/-- The per-entry body of the two parsing loops in `LogipadClient::getAllUsers`
(LPLogipadClient.cpp lines 186-236 and 243-289, textually identical): the guid is
copied when present (a default-constructed empty string otherwise), each optional
field via `optStrField`, the two booleans via `boolFieldD` with their defaults. -/
def parseUserEntry (j : Json) : Except JErr User := do
  let guid ← guidRead j
  let created_at ← optStrField j "created_at"
  let created_by ← optStrField j "created_by"
  let modified_at ← optStrField j "modified_at"
  let modified_by ← optStrField j "modified_by"
  let last_login_at ← optStrField j "last_login_at"
  let last_activity_at ← optStrField j "last_activity_at"
  let last_document_service_activity ← optStrField j "last_document_service_activity"
  let last_eform_service_activity ← optStrField j "last_eform_service_activity"
  let last_briefing_service_activity ← optStrField j "last_briefing_service_activity"
  let name ← optStrField j "name"
  let type ← optStrField j "type"
  let full_name ← optStrField j "full_name"
  let email ← optStrField j "email"
  let three_lc ← optStrField j "three_lc"
  let department ← optStrField j "department"
  let description ← optStrField j "description"
  let is_active ← boolFieldD j "is_active" true
  let is_reportable ← boolFieldD j "is_reportable" false
  pure ⟨guid, created_at, created_by, modified_at, modified_by, last_login_at,
    last_activity_at, last_document_service_activity, last_eform_service_activity,
    last_briefing_service_activity, name, type, full_name, email, three_lc,
    department, description, is_active, is_reportable⟩

/-- The parsing loop of `getAllUsers`: entries are parsed in order and pushed onto
the accumulator; a json exception aborts the loop, leaving the users pushed so far
(the C++ out-parameter keeps them when the catch block returns false). -/
def parseUsersLoop : List Json → List User → Except (JErr × List User) (List User)
  | [], acc => .ok acc
  | e :: rest, acc =>
    match parseUserEntry e with
    | .ok u => parseUsersLoop rest (acc ++ [u])
    | .error err => .error (err, acc)

/-- `LogipadClient::getAllUsers` (LPLogipadClient.cpp lines 153-303 of the
translation unit in LPHelperObject.cpp; the non-namespaced LPLogipadClient.cpp
lines 91-241 are identical): clears the out-parameter, fails without a request when
the token is empty, issues the GET on a fresh client for the api host, and on a 200
response parses the two accepted envelopes inside a try/catch; any other valid JSON
shape is reported as success with the collection left empty. -/
def LogipadClient.getAllUsers (c : LogipadClient) (users0 : Users) (apiHost : String)
    (apiPort : Int) (net : Net) : Bool × Users × List Request :=
  let cleared : Users := ⟨[]⟩
  if c.accessToken = "" then
    (false, cleared, [])
  else
    let req := LogipadClient.usersRequest c apiHost apiPort
    match net req with
    | some res =>
      if res.status = 200 then
        match jsonParse res.body with
        | .ok j =>
          if j.isArr then
            match parseUsersLoop j.arrElems [] with
            | .ok us => (true, ⟨us⟩, [req])
            | .error p => (false, ⟨p.2⟩, [req])
          else if j.isObj && j.containsKey "users" && (j.lookupD "users").isArr then
            match parseUsersLoop (j.lookupD "users").arrElems [] with
            | .ok us => (true, ⟨us⟩, [req])
            | .error p => (false, ⟨p.2⟩, [req])
          else (true, cleared, [req])
        | .error _ => (false, cleared, [req])
      else (false, cleared, [req])
    | none => (false, cleared, [req])

/-! ## Matching predicates relating a JSON entry to the record parsed from it -/

/-- An optional string field of the record is set exactly when the entry holds the
key with a non-null value, and then carries that string. -/
def OptFieldMatch (j : Json) (k : String) (o : Option String) : Prop :=
  match o with
  | some s => j.containsKey k = true ∧ j.lookupD k = Json.str s
  | none => j.containsKey k = false ∨ j.lookupD k = Json.null

/-- A defaulted boolean field of the record carries the value of the entry when the
key is present and the default otherwise. -/
def BoolFieldMatch (j : Json) (k : String) (b : Bool) (dflt : Bool) : Prop :=
  if j.containsKey k = true then j.lookupD k = Json.bool b else b = dflt

/-- Full relation between one JSON entry and the `User` record built from it by the
parsing loop of `getAllUsers`, covering the guid, the 14 optional string fields and
the two defaulted booleans. -/
def EntryMatch (j : Json) (u : User) : Prop :=
  (j.containsKey "guid" = true → j.lookupD "guid" = Json.str u.guid) ∧
  (j.containsKey "guid" = false → u.guid = "") ∧
  OptFieldMatch j "created_at" u.created_at ∧
  OptFieldMatch j "created_by" u.created_by ∧
  OptFieldMatch j "modified_at" u.modified_at ∧
  OptFieldMatch j "modified_by" u.modified_by ∧
  OptFieldMatch j "last_login_at" u.last_login_at ∧
  OptFieldMatch j "last_activity_at" u.last_activity_at ∧
  OptFieldMatch j "last_document_service_activity" u.last_document_service_activity ∧
  OptFieldMatch j "last_eform_service_activity" u.last_eform_service_activity ∧
  OptFieldMatch j "last_briefing_service_activity" u.last_briefing_service_activity ∧
  OptFieldMatch j "name" u.name ∧
  OptFieldMatch j "type" u.type ∧
  OptFieldMatch j "full_name" u.full_name ∧
  OptFieldMatch j "email" u.email ∧
  OptFieldMatch j "three_lc" u.three_lc ∧
  OptFieldMatch j "department" u.department ∧
  OptFieldMatch j "description" u.description ∧
  BoolFieldMatch j "is_active" u.is_active true ∧
  BoolFieldMatch j "is_reportable" u.is_reportable false

/-- Relation between an entry that holds a guid key and the record parsed from it,
as the specification states it: the guid string is copied, every optional string
field is set exactly when present and non-null (and then copied), and the two
booleans take the value of the entry or their documented default when absent. -/
def ClaimRecordMatch (j : Json) (u : User) : Prop :=
  j.lookupD "guid" = Json.str u.guid ∧
  OptFieldMatch j "created_at" u.created_at ∧
  OptFieldMatch j "created_by" u.created_by ∧
  OptFieldMatch j "modified_at" u.modified_at ∧
  OptFieldMatch j "modified_by" u.modified_by ∧
  OptFieldMatch j "last_login_at" u.last_login_at ∧
  OptFieldMatch j "last_activity_at" u.last_activity_at ∧
  OptFieldMatch j "last_document_service_activity" u.last_document_service_activity ∧
  OptFieldMatch j "last_eform_service_activity" u.last_eform_service_activity ∧
  OptFieldMatch j "last_briefing_service_activity" u.last_briefing_service_activity ∧
  OptFieldMatch j "name" u.name ∧
  OptFieldMatch j "type" u.type ∧
  OptFieldMatch j "full_name" u.full_name ∧
  OptFieldMatch j "email" u.email ∧
  OptFieldMatch j "three_lc" u.three_lc ∧
  OptFieldMatch j "department" u.department ∧
  OptFieldMatch j "description" u.description ∧
  BoolFieldMatch j "is_active" u.is_active true ∧
  BoolFieldMatch j "is_reportable" u.is_reportable false

/-- The two response envelopes accepted by `getAllUsers`, with their entry list. -/
def EnvelopeEntries (j : Json) (entries : List Json) : Prop :=
  j = Json.arr entries ∨
    (j.isObj = true ∧ j.containsKey "users" = true ∧ j.lookupD "users" = Json.arr entries)

/-! ## Helper lemmas about the JSON accessors -/

lemma getString_ok {v : Json} {s : String} (h : Json.getString v = Except.ok s) :
    v = Json.str s := by
  cases v <;> simp_all [Json.getString]

lemma getBool_ok {v : Json} {b : Bool} (h : Json.getBool v = Except.ok b) :
    v = Json.bool b := by
  cases v <;> simp_all [Json.getBool]

lemma isNull_eq {v : Json} (h : v.isNull = true) : v = Json.null := by
  cases v <;> simp_all [Json.isNull]

lemma isObj_not_isArr {v : Json} (h : v.isObj = true) : v.isArr = false := by
  cases v <;> simp_all [Json.isObj, Json.isArr]

lemma lookupD_of_not_contains {j : Json} {k : String} (h : j.containsKey k = false) :
    j.lookupD k = Json.null := by
  cases j with
  | obj fields =>
    have hfind : fields.find? (fun p => p.1 == k) = none := by
      rw [List.find?_eq_none]
      intro x hx hbeq
      have hc : Json.containsKey (Json.obj fields) k = true := by
        simp only [Json.containsKey, List.any_eq_true]
        exact ⟨x, hx, hbeq⟩
      rw [h] at hc
      cases hc
    simp [Json.lookupD, hfind]
  | null => rfl
  | bool b => rfl
  | num n => rfl
  | str s => rfl
  | arr elems => rfl

lemma contains_of_lookupD_str {j : Json} {k : String} {s : String}
    (h : j.lookupD k = Json.str s) : j.containsKey k = true := by
  cases hc : j.containsKey k with
  | true => rfl
  | false => rw [lookupD_of_not_contains hc] at h; cases h

lemma exceptBind_ok {α β : Type} {x : Except JErr α} {f : α → Except JErr β} {b : β}
    (h : x >>= f = Except.ok b) : ∃ a, x = Except.ok a ∧ f a = Except.ok b := by
  cases x with
  | ok a => exact ⟨a, rfl, by simpa [Bind.bind, Except.bind] using h⟩
  | error e => simp [Bind.bind, Except.bind] at h

lemma optStrField_ok {j : Json} {k : String} {o : Option String}
    (h : optStrField j k = Except.ok o) : OptFieldMatch j k o := by
  unfold optStrField at h
  by_cases hc : (j.containsKey k && !(j.lookupD k).isNull) = true
  · rw [if_pos hc] at h
    cases hg : (j.lookupD k).getString with
    | ok s =>
      rw [hg] at h
      have ho : o = some s := by simpa using h.symm
      subst ho
      exact ⟨(Bool.and_eq_true _ _ |>.mp hc).1, getString_ok hg⟩
    | error e => rw [hg] at h; cases h
  · rw [if_neg hc] at h
    have ho : o = none := by simpa using h.symm
    subst ho
    rw [Bool.and_eq_true, not_and_or] at hc
    cases hc with
    | inl hl =>
      exact Or.inl (by simpa using hl)
    | inr hr =>
      refine Or.inr (isNull_eq ?_)
      simpa using hr

lemma boolFieldD_ok {j : Json} {k : String} {dflt b : Bool}
    (h : boolFieldD j k dflt = Except.ok b) : BoolFieldMatch j k b dflt := by
  unfold boolFieldD at h
  unfold BoolFieldMatch
  by_cases hc : j.containsKey k = true
  · rw [if_pos hc] at h
    rw [if_pos hc]
    exact getBool_ok h
  · rw [if_neg hc] at h
    rw [if_neg hc]
    simpa using h.symm

lemma guidRead_ok {j : Json} {g : String} (h : guidRead j = Except.ok g) :
    (j.containsKey "guid" = true → j.lookupD "guid" = Json.str g) ∧
    (j.containsKey "guid" = false → g = "") := by
  unfold guidRead at h
  by_cases hc : j.containsKey "guid" = true
  · rw [if_pos hc] at h
    exact ⟨fun _ => getString_ok h, fun hfalse => by rw [hc] at hfalse; cases hfalse⟩
  · rw [if_neg hc] at h
    have hg : g = "" := by simpa [Pure.pure, Except.pure] using h.symm
    exact ⟨fun htrue => absurd htrue hc, fun _ => hg⟩

lemma parseUserEntry_ok {j : Json} {u : User} (h : parseUserEntry j = Except.ok u) :
    EntryMatch j u := by
  unfold parseUserEntry at h
  obtain ⟨g, hg, h⟩ := exceptBind_ok h
  obtain ⟨f1, h1, h⟩ := exceptBind_ok h
  obtain ⟨f2, h2, h⟩ := exceptBind_ok h
  obtain ⟨f3, h3, h⟩ := exceptBind_ok h
  obtain ⟨f4, h4, h⟩ := exceptBind_ok h
  obtain ⟨f5, h5, h⟩ := exceptBind_ok h
  obtain ⟨f6, h6, h⟩ := exceptBind_ok h
  obtain ⟨f7, h7, h⟩ := exceptBind_ok h
  obtain ⟨f8, h8, h⟩ := exceptBind_ok h
  obtain ⟨f9, h9, h⟩ := exceptBind_ok h
  obtain ⟨f10, h10, h⟩ := exceptBind_ok h
  obtain ⟨f11, h11, h⟩ := exceptBind_ok h
  obtain ⟨f12, h12, h⟩ := exceptBind_ok h
  obtain ⟨f13, h13, h⟩ := exceptBind_ok h
  obtain ⟨f14, h14, h⟩ := exceptBind_ok h
  obtain ⟨f15, h15, h⟩ := exceptBind_ok h
  obtain ⟨f16, h16, h⟩ := exceptBind_ok h
  obtain ⟨b1, hb1, h⟩ := exceptBind_ok h
  obtain ⟨b2, hb2, h⟩ := exceptBind_ok h
  have hu : u = ⟨g, f1, f2, f3, f4, f5, f6, f7, f8, f9, f10, f11, f12, f13, f14,
      f15, f16, b1, b2⟩ := by
    simpa [Pure.pure, Except.pure] using h.symm
  subst hu
  obtain ⟨hgt, hgf⟩ := guidRead_ok hg
  exact ⟨hgt, hgf, optStrField_ok h1, optStrField_ok h2, optStrField_ok h3,
    optStrField_ok h4, optStrField_ok h5, optStrField_ok h6, optStrField_ok h7,
    optStrField_ok h8, optStrField_ok h9, optStrField_ok h10, optStrField_ok h11,
    optStrField_ok h12, optStrField_ok h13, optStrField_ok h14, optStrField_ok h15,
    optStrField_ok h16, boolFieldD_ok hb1, boolFieldD_ok hb2⟩

lemma parseUsersLoop_ok :
    ∀ {js : List Json} {acc us : List User}, parseUsersLoop js acc = Except.ok us →
      ∃ tail, us = acc ++ tail ∧
        List.Forall₂ (fun j u => parseUserEntry j = Except.ok u) js tail := by
  intro js
  induction js with
  | nil =>
    intro acc us h
    refine ⟨[], ?_, List.Forall₂.nil⟩
    have : acc = us := by simpa [parseUsersLoop] using h
    simp [this]
  | cons e rest ih =>
    intro acc us h
    unfold parseUsersLoop at h
    cases he : parseUserEntry e with
    | ok u =>
      rw [he] at h
      obtain ⟨tail, htail, hall⟩ := ih h
      refine ⟨u :: tail, by simp [htail], List.Forall₂.cons he hall⟩
    | error err => rw [he] at h; cases h

lemma getAllUsers_ok_entries
    (c : LogipadClient) (users0 : Users) (apiHost : String) (apiPort : Int) (net : Net)
    (res : Response) (j : Json) (entries : List Json)
    (htok : ¬ c.accessToken = "")
    (hnet : net (LogipadClient.usersRequest c apiHost apiPort) = some res)
    (hstatus : res.status = 200)
    (hbody : res.body = BodyContent.wellFormed j)
    (henv : EnvelopeEntries j entries)
    (hok : (LogipadClient.getAllUsers c users0 apiHost apiPort net).1 = true) :
    List.Forall₂ (fun e u => parseUserEntry e = Except.ok u) entries
      (LogipadClient.getAllUsers c users0 apiHost apiPort net).2.1.users := by
  simp only [LogipadClient.getAllUsers] at hok ⊢
  rw [if_neg htok] at hok ⊢
  rw [hnet] at hok ⊢
  simp only [hstatus, if_pos, hbody, jsonParse] at hok ⊢
  cases henv with
  | inl harr =>
    subst harr
    simp only [Json.isArr, if_pos, Json.arrElems] at hok ⊢
    cases hp : parseUsersLoop entries [] with
    | ok us =>
      obtain ⟨tail, htail, hall⟩ := parseUsersLoop_ok hp
      simpa [htail] using hall
    | error p => rw [hp] at hok; simp at hok
  | inr hobj =>
    obtain ⟨ho, hcontains, hlook⟩ := hobj
    rw [if_neg (by rw [isObj_not_isArr ho]; exact Bool.false_ne_true)] at hok ⊢
    rw [if_pos (by rw [ho, hcontains, hlook]; rfl)] at hok ⊢
    rw [hlook] at hok ⊢
    simp only [Json.arrElems] at hok ⊢
    cases hp : parseUsersLoop entries [] with
    | ok us =>
      obtain ⟨tail, htail, hall⟩ := parseUsersLoop_ok hp
      simpa [htail] using hall
    | error p => rw [hp] at hok; simp at hok

lemma kcAuth_token_cases (c : KeycloakClient) (net : Net) :
    (KeycloakClient.authenticate c net).1 = true ∨
    (KeycloakClient.authenticate c net).2.1.accessToken = "" := by
  simp only [KeycloakClient.authenticate]
  repeat' split
  all_goals first
  | exact Or.inl rfl
  | exact Or.inr rfl

lemma kcAuth_false_token {c : KeycloakClient} {net : Net}
    (h : (KeycloakClient.authenticate c net).1 = false) :
    (KeycloakClient.authenticate c net).2.1.accessToken = "" := by
  cases kcAuth_token_cases c net with
  | inl htrue => rw [h] at htrue; cases htrue
  | inr htok => exact htok

lemma lcAuth_shape (c : LogipadClient) (net : Net) :
    (∃ s, (LogipadClient.authenticate c net).1 =
        Except.ok (true, { c with accessToken := s })) ∨
    ((LogipadClient.authenticate c net).1 =
        Except.ok (false, { c with accessToken := "" })) ∨
    (∃ e, (LogipadClient.authenticate c net).1 =
        Except.error (e, { c with accessToken := "" })) := by
  simp only [LogipadClient.authenticate]
  repeat' split
  all_goals first
  | exact Or.inl ⟨_, rfl⟩
  | exact Or.inr (Or.inl rfl)
  | exact Or.inr (Or.inr ⟨_, rfl⟩)

lemma lcAuth_ok_false_token {c : LogipadClient} {net : Net} {b : Bool}
    {lc2 : LogipadClient} (h : (LogipadClient.authenticate c net).1 = Except.ok (b, lc2))
    (hb : b = false) : lc2.accessToken = "" := by
  rcases lcAuth_shape c net with ⟨s, hs⟩ | hf | ⟨e, he⟩
  · rw [hs] at h
    have hbt : true = b := (by simpa using h : true = b ∧ _).1
    rw [← hbt] at hb
    cases hb
  · rw [hf] at h
    have hp : false = b ∧ ({ c with accessToken := "" } : LogipadClient) = lc2 := by
      simpa using h
    rw [← hp.2]
  · rw [he] at h
    cases h

lemma kcAuth_trace_paths (c : KeycloakClient) (net : Net) :
    ∀ r ∈ (KeycloakClient.authenticate c net).2.2,
      r.path = "/realms/" ++ c.realm ++ "/protocol/openid-connect/token" := by
  simp only [KeycloakClient.authenticate]
  repeat' split
  all_goals intro r hr
  all_goals first
  | (rw [List.mem_singleton] at hr; subst hr; rfl)
  | cases hr

lemma kcAuth_empty_cred {c : KeycloakClient} (net : Net)
    (h : c.username = "" ∨ c.password = "") :
    KeycloakClient.authenticate c net =
      (false, { c with accessToken := "", lastError := "Username or password not set" }, []) := by
  simp only [KeycloakClient.authenticate]
  split
  · rfl
  · next hcond => exact absurd h hcond

lemma lcAuth_empty_cred {c : LogipadClient} (net : Net)
    (h : c.username = "" ∨ c.password = "") :
    LogipadClient.authenticate c net =
      (Except.ok (false, { c with accessToken := "" }), []) := by
  simp only [LogipadClient.authenticate]
  split
  · rfl
  · next hcond => exact absurd h hcond

lemma kcAuth_ignores_token (c : KeycloakClient) (net : Net) :
    KeycloakClient.authenticate c net =
      KeycloakClient.authenticate { c with accessToken := "" } net := rfl

lemma lcAuth_ignores_token (c : LogipadClient) (net : Net) :
    LogipadClient.authenticate c net =
      LogipadClient.authenticate { c with accessToken := "" } net := rfl

lemma ensureAuth_token_held {c : KeycloakClient} (net : Net) (h : ¬ c.accessToken = "") :
    KeycloakClient.ensureAuthenticated c net = (true, c, []) := by
  simp only [KeycloakClient.ensureAuthenticated, if_neg h]

lemma ensureAuth_trace_paths (c : KeycloakClient) (net : Net) :
    ∀ r ∈ (KeycloakClient.ensureAuthenticated c net).2.2,
      r.path = "/realms/" ++ c.realm ++ "/protocol/openid-connect/token" := by
  simp only [KeycloakClient.ensureAuthenticated]
  split
  · exact kcAuth_trace_paths c net
  · intro r hr; cases hr

/-! ## Claim theorems -/

/-- C6: whenever the held access token is empty, `getAllUsers` returns false, leaves
the result collection empty, issues no request, and makes no re-authentication
attempt (the request trace is empty, so in particular no token request is sent). -/
theorem C6_getAllUsers_empty_token (c : LogipadClient) (users0 : Users)
    (apiHost : String) (apiPort : Int) (net : Net) (h : c.accessToken = "") :
    LogipadClient.getAllUsers c users0 apiHost apiPort net = (false, ⟨[]⟩, []) := by
  simp only [LogipadClient.getAllUsers, if_pos h]

/-- C6 witness: a concrete client with an empty token. -/
theorem C6_witness :
    ((⟨"kc.example", 443, "Logipad", "lpclient", "u", "p", ""⟩ : LogipadClient).accessToken
        = "") ∧
    LogipadClient.getAllUsers ⟨"kc.example", 443, "Logipad", "lpclient", "u", "p", ""⟩
        ⟨[]⟩ "identity.example" 443 (fun _ => none) = (false, ⟨[]⟩, []) :=
  ⟨rfl, C6_getAllUsers_empty_token _ _ _ _ _ rfl⟩

/-- C7: `authenticate` with an empty username or password returns false with an
empty request trace (no request is issued) on both clients, and the result of
`authenticate` never depends on the previously stored access token, because the
token is cleared at the start of every attempt before anything else happens. -/
theorem C7_authenticate_guards (kc : KeycloakClient) (lc : LogipadClient) (net : Net) :
    (kc.username = "" ∨ kc.password = "" →
      KeycloakClient.authenticate kc net =
        (false,
         { kc with accessToken := "", lastError := "Username or password not set" }, [])) ∧
    (lc.username = "" ∨ lc.password = "" →
      LogipadClient.authenticate lc net =
        (Except.ok (false, { lc with accessToken := "" }), [])) ∧
    KeycloakClient.authenticate kc net =
      KeycloakClient.authenticate { kc with accessToken := "" } net ∧
    LogipadClient.authenticate lc net =
      LogipadClient.authenticate { lc with accessToken := "" } net :=
  ⟨fun h => kcAuth_empty_cred net h, fun h => lcAuth_empty_cred net h,
   kcAuth_ignores_token kc net, lcAuth_ignores_token lc net⟩

/-- C7 witness: concrete clients with an empty username and a stale token. -/
theorem C7_witness :
    (("" : String) = "" ∨ ("p" : String) = "") ∧
    KeycloakClient.authenticate ⟨"h", 443, "r", "cid", "", "p", "tok", "err"⟩
        (fun _ => none) =
      (false, ⟨"h", 443, "r", "cid", "", "p", "", "Username or password not set"⟩, []) ∧
    LogipadClient.authenticate ⟨"h", 443, "r", "cid", "", "p", "tok"⟩ (fun _ => none) =
      (Except.ok (false, ⟨"h", 443, "r", "cid", "", "p", ""⟩), []) :=
  ⟨Or.inl rfl,
   (C7_authenticate_guards ⟨"h", 443, "r", "cid", "", "p", "tok", "err"⟩
     ⟨"h", 443, "r", "cid", "", "p", "tok"⟩ (fun _ => none)).1 (Or.inl rfl),
   (C7_authenticate_guards ⟨"h", 443, "r", "cid", "", "p", "tok", "err"⟩
     ⟨"h", 443, "r", "cid", "", "p", "tok"⟩ (fun _ => none)).2.1 (Or.inl rfl)⟩

/-- C8: on both clients `isAuthenticated` is true exactly when the stored token is
non-empty; `setCredentials` clears the token and leaves the client reporting
unauthenticated; and a failed `authenticate` (one that returns false) leaves the
token empty. -/
theorem C8_token_invariant (kc : KeycloakClient) (lc : LogipadClient) (net : Net)
    (u p : String) :
    (KeycloakClient.isAuthenticated kc = true ↔ kc.accessToken ≠ "") ∧
    (LogipadClient.isAuthenticated lc = true ↔ lc.accessToken ≠ "") ∧
    (KeycloakClient.setCredentials kc u p).accessToken = "" ∧
    KeycloakClient.isAuthenticated (KeycloakClient.setCredentials kc u p) = false ∧
    ((KeycloakClient.authenticate kc net).1 = false →
      (KeycloakClient.authenticate kc net).2.1.accessToken = "") ∧
    (∀ lc2, (LogipadClient.authenticate lc net).1 = Except.ok (false, lc2) →
      lc2.accessToken = "") := by
  refine ⟨?_, ?_, rfl, ?_, fun h => kcAuth_false_token h,
    fun lc2 h => lcAuth_ok_false_token h rfl⟩
  · simp [KeycloakClient.isAuthenticated]
  · simp [LogipadClient.isAuthenticated]
  · simp [KeycloakClient.isAuthenticated, KeycloakClient.setCredentials]

/-- C8 witness: a concrete failed authentication (transport failure) and a concrete
credential update, both leaving the token empty and the client unauthenticated. -/
theorem C8_witness :
    ((KeycloakClient.authenticate ⟨"h", 443, "r", "cid", "u", "p", "tok", "e"⟩
        (fun _ => none)).1 = false) ∧
    (KeycloakClient.authenticate ⟨"h", 443, "r", "cid", "u", "p", "tok", "e"⟩
        (fun _ => none)).2.1.accessToken = "" ∧
    (KeycloakClient.setCredentials ⟨"h", 443, "r", "cid", "u", "p", "tok", "e"⟩
        "u2" "p2").accessToken = "" ∧
    KeycloakClient.isAuthenticated
      (KeycloakClient.setCredentials ⟨"h", 443, "r", "cid", "u", "p", "tok", "e"⟩
        "u2" "p2") = false :=
  ⟨rfl,
   (C8_token_invariant ⟨"h", 443, "r", "cid", "u", "p", "tok", "e"⟩
       ⟨"h", 443, "r", "cid", "u", "p", "t"⟩ (fun _ => none) "u2" "p2").2.2.2.2.1 rfl,
   (C8_token_invariant ⟨"h", 443, "r", "cid", "u", "p", "tok", "e"⟩
       ⟨"h", 443, "r", "cid", "u", "p", "t"⟩ (fun _ => none) "u2" "p2").2.2.1,
   (C8_token_invariant ⟨"h", 443, "r", "cid", "u", "p", "tok", "e"⟩
       ⟨"h", 443, "r", "cid", "u", "p", "t"⟩ (fun _ => none) "u2" "p2").2.2.2.1⟩

/-- C10: when `getAllUsers` receives a 200 response whose body is valid JSON but is
neither a top-level array nor an object holding a `users` array field, it returns
true with the output collection left empty (one GET request was sent): the
unrecognized-but-valid shape is reported as success, not as a parse failure. -/
theorem C10_valid_unrecognized_shape (c : LogipadClient) (users0 : Users)
    (apiHost : String) (apiPort : Int) (net : Net) (res : Response) (j : Json)
    (htok : ¬ c.accessToken = "")
    (hnet : net (LogipadClient.usersRequest c apiHost apiPort) = some res)
    (hstatus : res.status = 200)
    (hbody : res.body = BodyContent.wellFormed j)
    (harr : j.isArr = false)
    (hobj : ¬ (j.isObj = true ∧ j.containsKey "users" = true ∧
      (j.lookupD "users").isArr = true)) :
    LogipadClient.getAllUsers c users0 apiHost apiPort net =
      (true, ⟨[]⟩, [LogipadClient.usersRequest c apiHost apiPort]) := by
  simp only [LogipadClient.getAllUsers]
  rw [if_neg htok, hnet]
  simp only [hstatus, if_pos, hbody, jsonParse]
  rw [if_neg (by rw [harr]; exact Bool.false_ne_true)]
  rw [if_neg (fun hc => hobj (by simpa [Bool.and_eq_true, and_assoc] using hc))]

/-- C10 witness: a 200 response whose body is the JSON number 42. -/
theorem C10_witness :
    (¬ (⟨"h", 443, "r", "cid", "u", "p", "tok"⟩ : LogipadClient).accessToken = "") ∧
    ((Json.num 42).isArr = false) ∧
    (¬ ((Json.num 42).isObj = true ∧ (Json.num 42).containsKey "users" = true ∧
      ((Json.num 42).lookupD "users").isArr = true)) ∧
    LogipadClient.getAllUsers ⟨"h", 443, "r", "cid", "u", "p", "tok"⟩ ⟨[]⟩
        "api.example" 443 (fun _ => some ⟨200, BodyContent.wellFormed (Json.num 42), "42"⟩) =
      (true, ⟨[]⟩,
       [LogipadClient.usersRequest ⟨"h", 443, "r", "cid", "u", "p", "tok"⟩
         "api.example" 443]) :=
  ⟨by decide, rfl, by decide,
   C10_valid_unrecognized_shape ⟨"h", 443, "r", "cid", "u", "p", "tok"⟩ ⟨[]⟩
     "api.example" 443
     (fun _ => some ⟨200, BodyContent.wellFormed (Json.num 42), "42"⟩)
     ⟨200, BodyContent.wellFormed (Json.num 42), "42"⟩ (Json.num 42)
     (by decide) rfl rfl rfl rfl (by decide)⟩

lemma entryMatch_claim {j : Json} {u : User} (hm : EntryMatch j u)
    (hg : j.containsKey "guid" = true) : ClaimRecordMatch j u := by
  obtain ⟨g1, g2, o1, o2, o3, o4, o5, o6, o7, o8, o9, o10, o11, o12, o13, o14, o15,
    o16, b1, b2⟩ := hm
  exact ⟨g1 hg, o1, o2, o3, o4, o5, o6, o7, o8, o9, o10, o11, o12, o13, o14, o15,
    o16, b1, b2⟩

lemma forall₂_strengthen {α β : Type} {R S : α → β → Prop} :
    ∀ {l1 : List α} {l2 : List β}, List.Forall₂ R l1 l2 →
      (∀ a ∈ l1, ∀ b, R a b → S a b) → List.Forall₂ S l1 l2 := by
  intro l1 l2 h
  induction h with
  | nil => intro _; exact List.Forall₂.nil
  | @cons a b l1t l2t hr hrest ih =>
    intro hs
    exact List.Forall₂.cons (hs a (List.mem_cons_self a l1t) b hr)
      (ih fun x hx y hr2 => hs x (List.mem_cons_of_mem a hx) y hr2)

/-- C4: for every successful `getAllUsers` call whose 200 body is a top-level array
of user objects, or an object with a `users` array field, the output collection is
independent of its previous contents (cleared and replaced) and relates to the
entries pointwise in input order (`List.Forall₂`, so exactly one record per entry):
the guid is copied, every optional string field is set exactly when present and
non-null, and the booleans take the entry value or their defaults. The hypothesis
`hguid` reflects the claim wording: the entries are user objects, whose required
guid key is present. The record in fact has 16 optional string attributes (the
specification prose counts 14); the property is proved for every one of them. -/
theorem C4_getAllUsers_mapping (c : LogipadClient) (users0 : Users) (apiHost : String)
    (apiPort : Int) (net : Net) (res : Response) (j : Json) (entries : List Json)
    (htok : ¬ c.accessToken = "")
    (hnet : net (LogipadClient.usersRequest c apiHost apiPort) = some res)
    (hstatus : res.status = 200)
    (hbody : res.body = BodyContent.wellFormed j)
    (henv : EnvelopeEntries j entries)
    (hguid : ∀ e ∈ entries, e.containsKey "guid" = true)
    (hok : (LogipadClient.getAllUsers c users0 apiHost apiPort net).1 = true) :
    (∀ other : Users, LogipadClient.getAllUsers c other apiHost apiPort net =
      LogipadClient.getAllUsers c users0 apiHost apiPort net) ∧
    List.Forall₂ ClaimRecordMatch entries
      (LogipadClient.getAllUsers c users0 apiHost apiPort net).2.1.users := by
  refine ⟨fun other => rfl, ?_⟩
  have hall := getAllUsers_ok_entries c users0 apiHost apiPort net res j entries htok
    hnet hstatus hbody henv hok
  exact forall₂_strengthen hall
    (fun e he u hu => entryMatch_claim (parseUserEntry_ok hu) (hguid e he))

/-- C4 witness: the spec example, a top-level array with one entry holding only a
guid; the call succeeds and yields exactly the record with guid g1, the boolean
defaults true / false, and every optional field unset. -/
theorem C4_witness :
    ((∀ e ∈ [Json.obj [("guid", Json.str "g1")]], e.containsKey "guid" = true) ∧
     (LogipadClient.getAllUsers ⟨"h", 443, "r", "cid", "u", "p", "tok"⟩ ⟨[]⟩ "api" 443
        (fun _ => some ⟨200,
          BodyContent.wellFormed (Json.arr [Json.obj [("guid", Json.str "g1")]]),
          "b"⟩)).1 = true) ∧
    (LogipadClient.getAllUsers ⟨"h", 443, "r", "cid", "u", "p", "tok"⟩ ⟨[]⟩ "api" 443
        (fun _ => some ⟨200,
          BodyContent.wellFormed (Json.arr [Json.obj [("guid", Json.str "g1")]]),
          "b"⟩)).2.1.users =
      [⟨"g1", none, none, none, none, none, none, none, none, none, none, none, none,
        none, none, none, none, true, false⟩] ∧
    List.Forall₂ ClaimRecordMatch [Json.obj [("guid", Json.str "g1")]]
      (LogipadClient.getAllUsers ⟨"h", 443, "r", "cid", "u", "p", "tok"⟩ ⟨[]⟩ "api" 443
        (fun _ => some ⟨200,
          BodyContent.wellFormed (Json.arr [Json.obj [("guid", Json.str "g1")]]),
          "b"⟩)).2.1.users :=
  ⟨⟨by decide, by decide⟩, by decide,
   (C4_getAllUsers_mapping ⟨"h", 443, "r", "cid", "u", "p", "tok"⟩ ⟨[]⟩ "api" 443
      (fun _ => some ⟨200,
        BodyContent.wellFormed (Json.arr [Json.obj [("guid", Json.str "g1")]]), "b"⟩)
      ⟨200, BodyContent.wellFormed (Json.arr [Json.obj [("guid", Json.str "g1")]]), "b"⟩
      (Json.arr [Json.obj [("guid", Json.str "g1")]])
      [Json.obj [("guid", Json.str "g1")]]
      (by decide) rfl rfl rfl (Or.inl rfl) (by decide) (by decide)).2⟩

/-- C9 counterexample: the claim says every record produced by parsing has its guid
copied from the entry and no record lacking a guid value is emitted; but on a 200
body consisting of one entry with no guid key at all, the call succeeds and emits
one record whose guid is the default-constructed empty string, copied from nowhere. -/
theorem C9_counterexample :
    Json.containsKey (Json.obj []) "guid" = false ∧
    (LogipadClient.getAllUsers ⟨"h", 443, "r", "cid", "u", "p", "tok"⟩ ⟨[]⟩ "api" 443
        (fun _ => some ⟨200, BodyContent.wellFormed (Json.arr [Json.obj []]), "b"⟩)).1
      = true ∧
    (LogipadClient.getAllUsers ⟨"h", 443, "r", "cid", "u", "p", "tok"⟩ ⟨[]⟩ "api" 443
        (fun _ => some ⟨200, BodyContent.wellFormed (Json.arr [Json.obj []]), "b"⟩)).2.1.users
      = [⟨"", none, none, none, none, none, none, none, none, none, none, none, none,
          none, none, none, none, true, false⟩] := by
  refine ⟨rfl, by decide, by decide⟩

/-- C9 amended: for every successful `getAllUsers` parse, pointwise over the entries
of the accepted envelope: a record whose entry holds the guid key has that string
copied into its guid; a record whose entry lacks the key is still emitted, with the
default empty-string guid (entries are not rejected or skipped for a missing guid). -/
theorem C9_guid_amended (c : LogipadClient) (users0 : Users) (apiHost : String)
    (apiPort : Int) (net : Net) (res : Response) (j : Json) (entries : List Json)
    (htok : ¬ c.accessToken = "")
    (hnet : net (LogipadClient.usersRequest c apiHost apiPort) = some res)
    (hstatus : res.status = 200)
    (hbody : res.body = BodyContent.wellFormed j)
    (henv : EnvelopeEntries j entries)
    (hok : (LogipadClient.getAllUsers c users0 apiHost apiPort net).1 = true) :
    List.Forall₂ (fun e u =>
        (e.containsKey "guid" = true → e.lookupD "guid" = Json.str u.guid) ∧
        (e.containsKey "guid" = false → u.guid = ""))
      entries (LogipadClient.getAllUsers c users0 apiHost apiPort net).2.1.users := by
  have hall := getAllUsers_ok_entries c users0 apiHost apiPort net res j entries htok
    hnet hstatus hbody henv hok
  refine forall₂_strengthen hall (fun e _ u hu => ?_)
  have hm := parseUserEntry_ok hu
  exact ⟨hm.1, hm.2.1⟩

/-- C9 witness: a two-entry array, one entry with a guid and one without; the parse
succeeds and the guid clauses hold pointwise. -/
theorem C9_witness :
    ((LogipadClient.getAllUsers ⟨"h", 443, "r", "cid", "u", "p", "tok"⟩ ⟨[]⟩ "api" 443
        (fun _ => some ⟨200,
          BodyContent.wellFormed
            (Json.arr [Json.obj [("guid", Json.str "g9")], Json.obj []]), "b"⟩)).1
      = true) ∧
    List.Forall₂ (fun e u =>
        (e.containsKey "guid" = true → e.lookupD "guid" = Json.str u.guid) ∧
        (e.containsKey "guid" = false → u.guid = ""))
      [Json.obj [("guid", Json.str "g9")], Json.obj []]
      (LogipadClient.getAllUsers ⟨"h", 443, "r", "cid", "u", "p", "tok"⟩ ⟨[]⟩ "api" 443
        (fun _ => some ⟨200,
          BodyContent.wellFormed
            (Json.arr [Json.obj [("guid", Json.str "g9")], Json.obj []]), "b"⟩)).2.1.users :=
  ⟨by decide,
   C9_guid_amended ⟨"h", 443, "r", "cid", "u", "p", "tok"⟩ ⟨[]⟩ "api" 443
     (fun _ => some ⟨200,
       BodyContent.wellFormed
         (Json.arr [Json.obj [("guid", Json.str "g9")], Json.obj []]), "b"⟩)
     ⟨200, BodyContent.wellFormed
       (Json.arr [Json.obj [("guid", Json.str "g9")], Json.obj []]), "b"⟩
     (Json.arr [Json.obj [("guid", Json.str "g9")], Json.obj []])
     [Json.obj [("guid", Json.str "g9")], Json.obj []]
     (by decide) rfl rfl rfl (Or.inl rfl) (by decide)⟩

/-- C1 counterexample: the claim quantifies over every UserCreationRecord, but for a
record whose password field is the empty string, `createUser` does send the mapped
JSON body (here the creation POST succeeds with 201), and that body holds no
credentials array at all, so no password is delivered inside a one-element
credentials array. -/
theorem C1_counterexample :
    (KeycloakClient.createUser ⟨"h", 443, "master", "cid", "adm", "pw", "tok", ""⟩
        ⟨"bob", "bob@x", "Bo", "Bb", "", true, true⟩ "Logipad"
        (fun _ => some ⟨201, BodyContent.wellFormed Json.null, ""⟩)).2.2 =
      [KeycloakClient.createUserRequest ⟨"h", 443, "master", "cid", "adm", "pw", "tok", ""⟩
        ⟨"bob", "bob@x", "Bo", "Bb", "", true, true⟩ "Logipad"] ∧
    (KeycloakClient.createUserRequest ⟨"h", 443, "master", "cid", "adm", "pw", "tok", ""⟩
        ⟨"bob", "bob@x", "Bo", "Bb", "", true, true⟩ "Logipad").body =
      RequestBody.json (UserInfo.toJson ⟨"bob", "bob@x", "Bo", "Bb", "", true, true⟩) ∧
    Json.containsKey (UserInfo.toJson ⟨"bob", "bob@x", "Bo", "Bb", "", true, true⟩)
      "credentials" = false :=
  ⟨rfl, rfl, by decide⟩

/-- C1 amended: for every record whose password field is non-empty, the JSON body
that `createUser` sends (here with a token already held, so the trace is exactly the
creation POST carrying the record mapped by `toJson`) delivers a one-element
credentials array of type password marked temporary whose value is the fixed literal
logipad, not the caller-supplied password field; a record with an empty password
carries no credentials array at all. -/
theorem C1_fixed_password_literal (c : KeycloakClient) (u : UserInfo) (realm : String)
    (net : Net) (htok : ¬ c.accessToken = "") (hu : ¬ u.username = "")
    (he : ¬ u.email = "") (hp : ¬ u.password = "") :
    (KeycloakClient.createUser c u realm net).2.2 =
      [KeycloakClient.createUserRequest { c with lastError := "" } u realm] ∧
    (KeycloakClient.createUserRequest { c with lastError := "" } u realm).body =
      RequestBody.json (UserInfo.toJson u) ∧
    Json.lookupD (UserInfo.toJson u) "credentials" =
      Json.arr [Json.obj [("type", Json.str "password"), ("value", Json.str "logipad"),
        ("temporary", Json.bool true)]] := by
  refine ⟨?_, rfl, ?_⟩
  · have hens : KeycloakClient.ensureAuthenticated { c with lastError := "" } net =
        (true, { c with lastError := "" }, []) := ensureAuth_token_held net htok
    simp only [KeycloakClient.createUser, hens]
    rw [if_neg (by simp)]
    rw [if_neg hu, if_neg he]
    cases hres : net (KeycloakClient.createUserRequest { c with lastError := "" } u realm) with
    | some res =>
      by_cases h201 : res.status = 201
      · simp [h201]
      · by_cases h409 : res.status = 409
        · simp [h201, h409]
        · simp [h201, h409]
    | none => rfl
  · simp only [UserInfo.toJson]
    rw [if_neg hp]
    rfl

/-- C1 witness: a concrete record with password secret; the sent body carries the
fixed literal in the credentials array. -/
theorem C1_witness :
    (¬ ("tok" : String) = "") ∧ (¬ ("bob" : String) = "") ∧ (¬ ("bob@x" : String) = "") ∧
    (¬ ("secret" : String) = "") ∧
    ((KeycloakClient.createUser ⟨"h", 443, "master", "cid", "adm", "pw", "tok", ""⟩
        ⟨"bob", "bob@x", "Bo", "Bb", "secret", true, true⟩ "Logipad"
        (fun _ => some ⟨201, BodyContent.wellFormed Json.null, ""⟩)).2.2 =
      [KeycloakClient.createUserRequest ⟨"h", 443, "master", "cid", "adm", "pw", "tok", ""⟩
        ⟨"bob", "bob@x", "Bo", "Bb", "secret", true, true⟩ "Logipad"] ∧
    (KeycloakClient.createUserRequest ⟨"h", 443, "master", "cid", "adm", "pw", "tok", ""⟩
        ⟨"bob", "bob@x", "Bo", "Bb", "secret", true, true⟩ "Logipad").body =
      RequestBody.json (UserInfo.toJson ⟨"bob", "bob@x", "Bo", "Bb", "secret", true, true⟩) ∧
    Json.lookupD (UserInfo.toJson ⟨"bob", "bob@x", "Bo", "Bb", "secret", true, true⟩)
      "credentials" =
      Json.arr [Json.obj [("type", Json.str "password"), ("value", Json.str "logipad"),
        ("temporary", Json.bool true)]]) :=
  ⟨by decide, by decide, by decide, by decide,
   C1_fixed_password_literal ⟨"h", 443, "master", "cid", "adm", "pw", "tok", ""⟩
     ⟨"bob", "bob@x", "Bo", "Bb", "secret", true, true⟩ "Logipad"
     (fun _ => some ⟨201, BodyContent.wellFormed Json.null, ""⟩)
     (by decide) (by decide) (by decide) (by decide)⟩

/-- C5 counterexample: the claim says a record with an empty username never causes
any network request; but when no token is held, `createUser` runs its lazy
re-authentication before validating the record, so with client credentials set and
the record username empty, a token POST is sent (the trace holds exactly that
request) even though the call returns false. -/
theorem C5_counterexample :
    ((⟨"h", 443, "master", "cid", "adm", "pw", "", ""⟩ : KeycloakClient).accessToken
      = "") ∧
    (KeycloakClient.createUser ⟨"h", 443, "master", "cid", "adm", "pw", "", ""⟩
        ⟨"", "e@x", "F", "L", "pw2", true, true⟩ "master"
        (fun _ => some ⟨200,
          BodyContent.wellFormed (Json.obj [("access_token", Json.str "t")]), "b"⟩)).1
      = false ∧
    (KeycloakClient.createUser ⟨"h", 443, "master", "cid", "adm", "pw", "", ""⟩
        ⟨"", "e@x", "F", "L", "pw2", true, true⟩ "master"
        (fun _ => some ⟨200,
          BodyContent.wellFormed (Json.obj [("access_token", Json.str "t")]), "b"⟩)).2.2
      = [KeycloakClient.tokenRequest ⟨"h", 443, "master", "cid", "adm", "pw", "", ""⟩] :=
  ⟨rfl, rfl, rfl⟩

/-- C5 amended: `createUser` with an empty username or email in the record returns
false and never sends the user-creation POST; with a token already held it sends no
request at all, but with an empty token it first attempts lazy re-authentication,
so every request it can send is the token request (all trace entries carry the
token-endpoint path). -/
theorem C5_no_creation_post (c : KeycloakClient) (u : UserInfo) (realm : String)
    (net : Net) (h : u.username = "" ∨ u.email = "") :
    (KeycloakClient.createUser c u realm net).1 = false ∧
    (∀ r ∈ (KeycloakClient.createUser c u realm net).2.2,
      r.path = "/realms/" ++ c.realm ++ "/protocol/openid-connect/token") ∧
    (¬ c.accessToken = "" → (KeycloakClient.createUser c u realm net).2.2 = []) := by
  have key : (KeycloakClient.createUser c u realm net).1 = false ∧
      (KeycloakClient.createUser c u realm net).2.2 =
        (KeycloakClient.ensureAuthenticated { c with lastError := "" } net).2.2 := by
    simp only [KeycloakClient.createUser]
    by_cases hok :
      (KeycloakClient.ensureAuthenticated { c with lastError := "" } net).1 = false
    · rw [if_pos hok]; exact ⟨rfl, rfl⟩
    · rw [if_neg hok]
      rcases h with hu | he
      · rw [if_pos hu]; exact ⟨rfl, rfl⟩
      · by_cases hu : u.username = ""
        · rw [if_pos hu]; exact ⟨rfl, rfl⟩
        · rw [if_neg hu, if_pos he]; exact ⟨rfl, rfl⟩
  refine ⟨key.1, ?_, ?_⟩
  · rw [key.2]
    have hpaths := ensureAuth_trace_paths { c with lastError := "" } net
    simpa using hpaths
  · intro htok
    rw [key.2, ensureAuth_token_held net (by simpa using htok)]

/-- C5 witness: a held token and an empty record username; no request is sent. -/
theorem C5_witness :
    (("" : String) = "" ∨ ("e@x" : String) = "") ∧
    (KeycloakClient.createUser ⟨"h", 443, "m", "cid", "adm", "pw", "tok", ""⟩
        ⟨"", "e@x", "F", "L", "pw2", true, true⟩ "m" (fun _ => none)).1 = false ∧
    (KeycloakClient.createUser ⟨"h", 443, "m", "cid", "adm", "pw", "tok", ""⟩
        ⟨"", "e@x", "F", "L", "pw2", true, true⟩ "m" (fun _ => none)).2.2 = [] :=
  ⟨Or.inl rfl,
   (C5_no_creation_post ⟨"h", 443, "m", "cid", "adm", "pw", "tok", ""⟩
     ⟨"", "e@x", "F", "L", "pw2", true, true⟩ "m" (fun _ => none) (Or.inl rfl)).1,
   (C5_no_creation_post ⟨"h", 443, "m", "cid", "adm", "pw", "tok", ""⟩
     ⟨"", "e@x", "F", "L", "pw2", true, true⟩ "m" (fun _ => none) (Or.inl rfl)).2.2
     (by decide)⟩

/-- C3 counterexample: the claim says a 200 authenticate response whose body is not
valid JSON yields false rather than a thrown exception; but on exactly that input
`LogipadClient::authenticate` (which has no try/catch) lets the parse exception
escape, modelled by the error result. -/
theorem C3_counterexample :
    (LogipadClient.authenticate ⟨"h", 443, "Logipad", "lpclient", "u", "p", "tok"⟩
        (fun _ => some ⟨200, BodyContent.malformed, "not json"⟩)).1 =
      Except.error (JErr.parseFail, ⟨"h", 443, "Logipad", "lpclient", "u", "p", ""⟩) :=
  rfl

/-- C3 amended: parse exceptions in a 2xx body are caught internally and converted
to a false result in `KeycloakClient::authenticate`, `KeycloakClient::createUser`
and `LogipadClient::getAllUsers`; but `LogipadClient::authenticate` is the
exception to the rule: on a 200 response with a malformed body (and likewise a
missing or non-string access_token) the json exception escapes the public
operation. -/
theorem C3_parse_exception_policy :
    (∀ (kc : KeycloakClient) (net : Net) (txt : String),
      net (KeycloakClient.tokenRequest { kc with lastError := "", accessToken := "" }) =
          some ⟨200, BodyContent.malformed, txt⟩ →
        (KeycloakClient.authenticate kc net).1 = false) ∧
    (∀ (c : LogipadClient) (users0 : Users) (apiHost : String) (apiPort : Int)
        (net : Net) (txt : String),
      ¬ c.accessToken = "" →
      net (LogipadClient.usersRequest c apiHost apiPort) =
          some ⟨200, BodyContent.malformed, txt⟩ →
        LogipadClient.getAllUsers c users0 apiHost apiPort net =
          (false, ⟨[]⟩, [LogipadClient.usersRequest c apiHost apiPort])) ∧
    (∀ (c : KeycloakClient) (u : UserInfo) (realm : String) (net : Net) (txt : String),
      ¬ c.accessToken = "" → ¬ u.username = "" → ¬ u.email = "" →
      net (KeycloakClient.createUserRequest { c with lastError := "" } u realm) =
          some ⟨400, BodyContent.malformed, txt⟩ →
        (KeycloakClient.createUser c u realm net).1 = false) ∧
    (∀ (c : LogipadClient) (net : Net) (txt : String),
      ¬ c.username = "" → ¬ c.password = "" →
      net (LogipadClient.tokenRequest { c with accessToken := "" }) =
          some ⟨200, BodyContent.malformed, txt⟩ →
        (LogipadClient.authenticate c net).1 =
          Except.error (JErr.parseFail, { c with accessToken := "" })) := by
  refine ⟨?_, ?_, ?_, ?_⟩
  · intro kc net txt hnet
    by_cases hcred : kc.username = "" ∨ kc.password = ""
    · rw [kcAuth_empty_cred net hcred]
    · simp only [KeycloakClient.authenticate]
      rw [if_neg hcred, hnet]
      simp [jsonParse]
  · intro c users0 apiHost apiPort net txt htok hnet
    simp only [LogipadClient.getAllUsers]
    rw [if_neg htok, hnet]
    simp [jsonParse]
  · intro c u realm net txt htok hu he hnet
    have hens : KeycloakClient.ensureAuthenticated { c with lastError := "" } net =
        (true, { c with lastError := "" }, []) := ensureAuth_token_held net htok
    simp only [KeycloakClient.createUser, hens]
    rw [if_neg (by simp)]
    rw [if_neg hu, if_neg he, hnet]
    simp
  · intro c net txt hu hp hnet
    simp only [LogipadClient.authenticate]
    rw [if_neg (by rw [not_or]; exact ⟨hu, hp⟩), hnet]
    simp [jsonParse]

/-- C3 witness: concrete 200 responses with malformed bodies for each operation. -/
theorem C3_witness :
    ((KeycloakClient.authenticate ⟨"h", 443, "r", "cid", "u", "p", "", ""⟩
        (fun _ => some ⟨200, BodyContent.malformed, "bad"⟩)).1 = false) ∧
    (LogipadClient.getAllUsers ⟨"h", 443, "r", "cid", "u", "p", "tok"⟩ ⟨[]⟩ "api" 443
        (fun _ => some ⟨200, BodyContent.malformed, "bad"⟩) =
      (false, ⟨[]⟩,
       [LogipadClient.usersRequest ⟨"h", 443, "r", "cid", "u", "p", "tok"⟩ "api" 443])) ∧
    ((KeycloakClient.createUser ⟨"h", 443, "r", "cid", "u", "p", "tok", ""⟩
        ⟨"bob", "b@x", "F", "L", "pw", true, true⟩ "r"
        (fun _ => some ⟨400, BodyContent.malformed, "bad"⟩)).1 = false) ∧
    ((LogipadClient.authenticate ⟨"h", 443, "r", "cid", "u", "p", ""⟩
        (fun _ => some ⟨200, BodyContent.malformed, "bad"⟩)).1 =
      Except.error (JErr.parseFail, ⟨"h", 443, "r", "cid", "u", "p", ""⟩)) :=
  ⟨C3_parse_exception_policy.1 ⟨"h", 443, "r", "cid", "u", "p", "", ""⟩
     (fun _ => some ⟨200, BodyContent.malformed, "bad"⟩) "bad" rfl,
   C3_parse_exception_policy.2.1 ⟨"h", 443, "r", "cid", "u", "p", "tok"⟩ ⟨[]⟩ "api" 443
     (fun _ => some ⟨200, BodyContent.malformed, "bad"⟩) "bad" (by decide) rfl,
   C3_parse_exception_policy.2.2.1 ⟨"h", 443, "r", "cid", "u", "p", "tok", ""⟩
     ⟨"bob", "b@x", "F", "L", "pw", true, true⟩ "r"
     (fun _ => some ⟨400, BodyContent.malformed, "bad"⟩) "bad"
     (by decide) (by decide) (by decide) rfl,
   C3_parse_exception_policy.2.2.2 ⟨"h", 443, "r", "cid", "u", "p", ""⟩
     (fun _ => some ⟨200, BodyContent.malformed, "bad"⟩) "bad"
     (by decide) (by decide) rfl⟩

/-- C2 counterexample: with identical credential configuration and the identical
response (200 with body an empty JSON object, so no access_token), the embedded
client type returns false with an empty token, while `LogipadClient::authenticate`
throws (error result): its observable behaviour does not equal the KeycloakClient
one, and it does not delegate to the embedded instance. -/
theorem C2_counterexample :
    ((KeycloakClient.authenticate ⟨"h", 443, "r", "cid", "u", "p", "", ""⟩
        (fun _ => some ⟨200, BodyContent.wellFormed (Json.obj []), "\x7b\x7d"⟩)).1
      = false) ∧
    ((KeycloakClient.authenticate ⟨"h", 443, "r", "cid", "u", "p", "", ""⟩
        (fun _ => some ⟨200, BodyContent.wellFormed (Json.obj []), "\x7b\x7d"⟩)).2.1.accessToken
      = "") ∧
    ((LogipadClient.authenticate ⟨"h", 443, "r", "cid", "u", "p", ""⟩
        (fun _ => some ⟨200, BodyContent.wellFormed (Json.obj []), "\x7b\x7d"⟩)).1 =
      Except.error (JErr.typeMismatch, ⟨"h", 443, "r", "cid", "u", "p", ""⟩)) :=
  ⟨rfl, rfl, rfl⟩

/-- C2 amended: `LogipadClient::authenticate` does not delegate to the embedded
KeycloakClient member (which is never initialised or read); it re-implements the
same flow inline. For every shared credential configuration and every response it
sends the same request trace, and whenever it returns normally its boolean result
and resulting token state equal those of `KeycloakClient::authenticate`; it
diverges only by throwing - and exactly where the KeycloakClient returns false with
an empty token (200 response with a malformed body or a missing or non-string
access_token). -/
theorem C2_mirrors_keycloak (lc : LogipadClient) (kc : KeycloakClient) (net : Net)
    (h1 : lc.host = kc.host) (h2 : lc.port = kc.port) (h3 : lc.realm = kc.realm)
    (h4 : lc.clientId = kc.clientId) (h5 : lc.username = kc.username)
    (h6 : lc.password = kc.password) :
    (LogipadClient.authenticate lc net).2 = (KeycloakClient.authenticate kc net).2.2 ∧
    (∀ bp, (LogipadClient.authenticate lc net).1 = Except.ok bp →
      bp = ((KeycloakClient.authenticate kc net).1,
        { lc with accessToken := (KeycloakClient.authenticate kc net).2.1.accessToken })) ∧
    (∀ ep, (LogipadClient.authenticate lc net).1 = Except.error ep →
      (KeycloakClient.authenticate kc net).1 = false ∧
      (KeycloakClient.authenticate kc net).2.1.accessToken = "") := by
  have hreq : LogipadClient.tokenRequest { lc with accessToken := "" } =
      KeycloakClient.tokenRequest { kc with lastError := "", accessToken := "" } := by
    simp [LogipadClient.tokenRequest, KeycloakClient.tokenRequest, h1, h2, h3, h4, h5, h6]
  by_cases hcred : lc.username = "" ∨ lc.password = ""
  · have hkcred : kc.username = "" ∨ kc.password = "" := by
      rw [← h5, ← h6]; exact hcred
    rw [lcAuth_empty_cred net hcred, kcAuth_empty_cred net hkcred]
    exact ⟨rfl, fun bp hb => (Except.ok.inj hb).symm, fun ep hb => Except.noConfusion hb⟩
  · have hkcred : ¬ (kc.username = "" ∨ kc.password = "") := by
      rw [← h5, ← h6]; exact hcred
    simp only [LogipadClient.authenticate, KeycloakClient.authenticate]
    rw [if_neg hcred, if_neg hkcred, hreq]
    cases hres :
        net (KeycloakClient.tokenRequest { kc with lastError := "", accessToken := "" }) with
    | none =>
      dsimp only
      exact ⟨rfl, fun bp hb => (Except.ok.inj hb).symm, fun ep hb => Except.noConfusion hb⟩
    | some res =>
      dsimp only
      by_cases hst : res.status = 200
      · rw [if_pos hst, if_pos hst]
        cases hb2 : res.body with
        | malformed =>
          dsimp only [jsonParse]
          exact ⟨rfl, fun bp hb => Except.noConfusion hb, fun ep hb => ⟨rfl, rfl⟩⟩
        | wellFormed j =>
          dsimp only [jsonParse]
          cases hg : (j.lookupD "access_token").getString with
          | ok s =>
            have hct : j.containsKey "access_token" = true :=
              contains_of_lookupD_str (getString_ok hg)
            rw [if_pos hct]
            exact ⟨rfl, fun bp hb => (Except.ok.inj hb).symm,
              fun ep hb => Except.noConfusion hb⟩
          | error e0 =>
            by_cases hct : j.containsKey "access_token" = true
            · rw [if_pos hct]
              exact ⟨rfl, fun bp hb => Except.noConfusion hb, fun ep hb => ⟨rfl, rfl⟩⟩
            · rw [if_neg hct]
              exact ⟨rfl, fun bp hb => Except.noConfusion hb, fun ep hb => ⟨rfl, rfl⟩⟩
      · rw [if_neg hst, if_neg hst]
        exact ⟨rfl, fun bp hb => (Except.ok.inj hb).symm, fun ep hb => Except.noConfusion hb⟩

/-- C2 witness: identical configuration, a 200 response carrying access_token abc;
the traces agree and the normal return of the Logipad client carries exactly the
Keycloak result and token. -/
theorem C2_witness :
    ((⟨"h", 443, "r", "cid", "u", "p", "old"⟩ : LogipadClient).host =
      (⟨"h", 443, "r", "cid", "u", "p", "", "e"⟩ : KeycloakClient).host) ∧
    ((LogipadClient.authenticate ⟨"h", 443, "r", "cid", "u", "p", "old"⟩
        (fun _ => some ⟨200,
          BodyContent.wellFormed (Json.obj [("access_token", Json.str "abc")]), "b"⟩)).2 =
      (KeycloakClient.authenticate ⟨"h", 443, "r", "cid", "u", "p", "", "e"⟩
        (fun _ => some ⟨200,
          BodyContent.wellFormed (Json.obj [("access_token", Json.str "abc")]), "b"⟩)).2.2) ∧
    (((true, ⟨"h", 443, "r", "cid", "u", "p", "abc"⟩) : Bool × LogipadClient) =
      ((KeycloakClient.authenticate ⟨"h", 443, "r", "cid", "u", "p", "", "e"⟩
        (fun _ => some ⟨200,
          BodyContent.wellFormed (Json.obj [("access_token", Json.str "abc")]), "b"⟩)).1,
       ⟨"h", 443, "r", "cid", "u", "p",
        (KeycloakClient.authenticate ⟨"h", 443, "r", "cid", "u", "p", "", "e"⟩
          (fun _ => some ⟨200,
            BodyContent.wellFormed (Json.obj [("access_token", Json.str "abc")]),
            "b"⟩)).2.1.accessToken⟩)) :=
  ⟨rfl,
   (C2_mirrors_keycloak ⟨"h", 443, "r", "cid", "u", "p", "old"⟩
     ⟨"h", 443, "r", "cid", "u", "p", "", "e"⟩
     (fun _ => some ⟨200,
       BodyContent.wellFormed (Json.obj [("access_token", Json.str "abc")]), "b"⟩)
     rfl rfl rfl rfl rfl rfl).1,
   (C2_mirrors_keycloak ⟨"h", 443, "r", "cid", "u", "p", "old"⟩
     ⟨"h", 443, "r", "cid", "u", "p", "", "e"⟩
     (fun _ => some ⟨200,
       BodyContent.wellFormed (Json.obj [("access_token", Json.str "abc")]), "b"⟩)
     rfl rfl rfl rfl rfl rfl).2.1 (true, ⟨"h", 443, "r", "cid", "u", "p", "abc"⟩) rfl⟩
